import Mathlib

/-!
Verification of the clickward cluster topology and reconfiguration engine.

The definitions below are a shallow embedding of `src/lib.rs`:

* `ClickwardMetadata` embeds the Rust struct of the same name
  (`BTreeSet<u64>` becomes `Finset ℕ`; iteration in ascending order
  becomes `ascSort`, an insertion sort the kernel can evaluate).
* The metadata mutators `add_keeper`, `remove_keeper`, `add_server`,
  `remove_server` embed the `impl ClickwardMetadata` methods; the Rust
  methods take `&mut self`, so each Lean function returns the new state
  (paired with the returned id or `Except`-modelled `Result`).
* `ClickwardMetadata.new` embeds the constructor; the Rust code calls
  `.last().unwrap()` on each set, so an empty set makes it panic.  The
  panic is modelled by `Option.none` (the constructor has no error
  channel: its Rust return type is `ClickwardMetadata`, not `Result`).
* `Deployment.add_keeper` / `remove_keeper` / `add_server` /
  `remove_server` embed the orchestrator methods.  Their file writes and
  process signals are modelled as an ordered trace of `Event`s in exactly
  the order the Rust statements execute; the per-node configuration
  contents are modelled by `KeeperConfigView` / `ReplicaConfigView`,
  which record the id/port data the Rust `generate_keeper_config` /
  `generate_clickhouse_config` functions put into each file (the
  remaining fields — hosts, log paths, timeouts — are constants
  independent of the topology).
* `RunResult` classifies how a Rust orchestrator method ends: `ok`
  (returns `Ok(())`), `errored` (returns `Err(..)` via `?` or `bail!`),
  `crashed` (the process panics, e.g. `.expect(..)` on a failed spawn).
* Port arithmetic is `u16` in Rust: `base + (id as u16)` truncates `id`
  mod 2^16 and wraps the sum mod 2^16; `derivedPort` models this
  explicitly with `% 65536`.
-/

/-- One base port per logical service, embedding the Rust `BasePorts`
struct (fields are `u16` in Rust; values stay below 2^16). -/
structure BasePorts where
  keeper : ℕ
  raft : ℕ
  clickhouse_tcp : ℕ
  clickhouse_http : ℕ
  clickhouse_interserver_http : ℕ
deriving DecidableEq

/-- Embeds the Rust constant `DEFAULT_BASE_PORTS`. -/
def DEFAULT_BASE_PORTS : BasePorts :=
  { keeper := 20000
    raft := 21000
    clickhouse_tcp := 22000
    clickhouse_http := 23000
    clickhouse_interserver_http := 24000 }

/-- The five logical services whose ports are derived in
`generate_clickhouse_config` / `generate_keeper_config` /
`keeper_config`. -/
inductive Service where
  | keeperClient : Service
  | raft : Service
  | serverTcp : Service
  | serverHttp : Service
  | serverInterserverHttp : Service
deriving DecidableEq

/-- The base port the Rust code adds the node id to, per service:
`base_ports.keeper`, `base_ports.raft`, `base_ports.clickhouse_tcp`,
`base_ports.clickhouse_http`, `base_ports.clickhouse_interserver_http`. -/
def BasePorts.base (bp : BasePorts) : Service → ℕ
  | Service.keeperClient => bp.keeper
  | Service.raft => bp.raft
  | Service.serverTcp => bp.clickhouse_tcp
  | Service.serverHttp => bp.clickhouse_http
  | Service.serverInterserverHttp => bp.clickhouse_interserver_http

/-- `id as u16`: truncation of a `u64` to 16 bits. -/
def as_u16 (x : ℕ) : ℕ := x % 65536

/-- `u16` addition (wrapping, as in a release build). -/
def u16_add (a b : ℕ) : ℕ := (a + b) % 65536

/-- The port the Rust code computes for node `id` and service `s`:
`base + id as u16` in `u16` arithmetic. -/
def derivedPort (bp : BasePorts) (s : Service) (id : ℕ) : ℕ :=
  u16_add (bp.base s) (as_u16 id)

/-- The ascending list of the elements of a multiset of naturals,
computed by insertion sort (structural recursion, so the kernel can
evaluate it on concrete inputs; `Multiset.sort` would use `mergeSort`,
whose well-founded recursion does not reduce). -/
def ascSortM (m : Multiset ℕ) : List ℕ :=
  Quot.liftOn m (fun l => List.insertionSort (· ≤ ·) l)
    (fun _ _ h =>
      List.eq_of_perm_of_sorted
        ((List.perm_insertionSort _ _).trans
          (h.trans (List.perm_insertionSort _ _).symm))
        (List.sorted_insertionSort _ _) (List.sorted_insertionSort _ _))

/-- Ascending iteration over a `BTreeSet<u64>`: the elements of the set
in increasing order. -/
def ascSort (s : Finset ℕ) : List ℕ := ascSortM s.val

/-- Embeds the Rust struct `ClickwardMetadata`: the persisted topology. -/
structure ClickwardMetadata where
  /-- IDs of keepers that are currently part of the cluster. -/
  keeper_ids : Finset ℕ
  /-- The maximum allocated keeper id so far. -/
  max_keeper_id : ℕ
  /-- IDs of clickhouse servers. -/
  server_ids : Finset ℕ
  /-- The maximum allocated clickhouse server id so far. -/
  max_server_id : ℕ
deriving DecidableEq

namespace ClickwardMetadata

/-- Embeds `ClickwardMetadata::new`.  The Rust body evaluates
`*keeper_ids.last().unwrap()` and `*replica_ids.last().unwrap()`
(`last` of a `BTreeSet` is its maximum); `unwrap` on an empty set
panics.  `none` models that panic — the Rust signature returns a bare
`ClickwardMetadata`, so there is no error return at all. -/
def new (keeper_ids replica_ids : Finset ℕ) : Option ClickwardMetadata :=
  if hk : keeper_ids.Nonempty then
    if hr : replica_ids.Nonempty then
      some { keeper_ids := keeper_ids
             max_keeper_id := keeper_ids.max' hk
             server_ids := replica_ids
             max_server_id := replica_ids.max' hr }
    else none
  else none

/-- Embeds `ClickwardMetadata::add_keeper`: increments `max_keeper_id`,
inserts it into `keeper_ids`, returns it (paired with the new state,
modelling `&mut self`). -/
def add_keeper (m : ClickwardMetadata) : ℕ × ClickwardMetadata :=
  let new_max := m.max_keeper_id + 1
  (new_max,
   { m with max_keeper_id := new_max, keeper_ids := insert new_max m.keeper_ids })

/-- Embeds `ClickwardMetadata::remove_keeper`: removes `id` from the
set, then bails with "No such keeper" if nothing was removed.  The Rust
method mutates `&mut self` before the check, so the post-state (second
component) is the erased set in both branches — removal of a non-member
is a no-op on a `BTreeSet`. -/
def remove_keeper (m : ClickwardMetadata) (id : ℕ) :
    Except String Unit × ClickwardMetadata :=
  let m' := { m with keeper_ids := m.keeper_ids.erase id }
  if id ∈ m.keeper_ids then (Except.ok (), m')
  else (Except.error ("No such keeper: " ++ toString id), m')

/-- Embeds `ClickwardMetadata::add_server`. -/
def add_server (m : ClickwardMetadata) : ℕ × ClickwardMetadata :=
  let new_max := m.max_server_id + 1
  (new_max,
   { m with max_server_id := new_max, server_ids := insert new_max m.server_ids })

/-- Embeds `ClickwardMetadata::remove_server`. -/
def remove_server (m : ClickwardMetadata) (id : ℕ) :
    Except String Unit × ClickwardMetadata :=
  let m' := { m with server_ids := m.server_ids.erase id }
  if id ∈ m.server_ids then (Except.ok (), m')
  else (Except.error ("No such replica: " ++ toString id), m')

end ClickwardMetadata

/-- One raft peer entry of a keeper configuration file, embedding the
topology-dependent fields of the Rust `RaftServerConfig` (`hostname` is
the constant `"::1"`). -/
structure RaftServerConfig where
  id : ℕ
  port : ℕ
deriving DecidableEq

/-- The topology-dependent contents `generate_keeper_config` writes for
keeper `this_keeper`: its client (`tcp`) port, its `server_id`, and the
full ascending raft-peer list built from `keeper_ids`. -/
structure KeeperConfigView where
  tcp_port : ℕ
  server_id : ℕ
  raft_servers : List RaftServerConfig
deriving DecidableEq

/-- Projection of the keeper configuration from the topology, embedding
the body of `Deployment::generate_keeper_config`. -/
def keeperView (bp : BasePorts) (this_keeper : ℕ) (keeper_ids : Finset ℕ) :
    KeeperConfigView :=
  { tcp_port := derivedPort bp Service.keeperClient this_keeper
    server_id := this_keeper
    raft_servers := (ascSort keeper_ids).map
      (fun id => { id := id, port := derivedPort bp Service.raft id }) }

/-- The topology-dependent contents `generate_clickhouse_config` writes
for replica `id`: its macros replica number (shard and cluster name are
constants), its three listen ports, the ascending remote-server port
list built from `replica_ids`, and the ascending keeper port list built
from `keeper_ids`. -/
structure ReplicaConfigView where
  replica : ℕ
  http_port : ℕ
  tcp_port : ℕ
  interserver_http_port : ℕ
  remote_server_ports : List ℕ
  keeper_ports : List ℕ
deriving DecidableEq

/-- Projection of a replica configuration from the topology, embedding
the body of `Deployment::generate_clickhouse_config` for one replica. -/
def replicaView (bp : BasePorts) (id : ℕ) (keeper_ids server_ids : Finset ℕ) :
    ReplicaConfigView :=
  { replica := id
    http_port := derivedPort bp Service.serverHttp id
    tcp_port := derivedPort bp Service.serverTcp id
    interserver_http_port := derivedPort bp Service.serverInterserverHttp id
    remote_server_ports :=
      (ascSort server_ids).map (fun i => derivedPort bp Service.serverTcp i)
    keeper_ports :=
      (ascSort keeper_ids).map (fun i => derivedPort bp Service.keeperClient i) }

/-- One observable side effect of an orchestrator operation, in program
order: persisting the metadata file, writing one node's configuration
file, or spawning/signalling one node process. -/
inductive Event where
  | saveMeta : ClickwardMetadata → Event
  | writeKeeperConfig : ℕ → KeeperConfigView → Event
  | writeServerConfig : ℕ → ReplicaConfigView → Event
  | startKeeper : ℕ → Event
  | stopKeeper : ℕ → Event
  | startServer : ℕ → Event
  | stopServer : ℕ → Event
deriving DecidableEq

namespace Event

/-- Is this a keeper-configuration write for a keeper other than `newId`? -/
def isOtherKeeperWrite (newId : ℕ) : Event → Bool
  | Event.writeKeeperConfig k _ => k != newId
  | _ => false

/-- Is this a keeper-configuration file write? -/
def isKeeperCfgWrite : Event → Bool
  | Event.writeKeeperConfig _ _ => true
  | _ => false

/-- Is this a server (replica) configuration file write? -/
def isServerCfgWrite : Event → Bool
  | Event.writeServerConfig _ _ => true
  | _ => false

end Event

/-- The keeper-configuration writes of a loop
`for id in iter_ids { generate_keeper_config(id, cfg_ids) }`
(`BTreeSet` iteration is ascending). -/
def keeperWritesOver (bp : BasePorts) (iter_ids cfg_ids : Finset ℕ) : List Event :=
  (ascSort iter_ids).map
    (fun id => Event.writeKeeperConfig id (keeperView bp id cfg_ids))

/-- The replica-configuration writes of one
`generate_clickhouse_config(keeper_ids, replica_ids)` call: one file per
member of `replica_ids`, ascending. -/
def serverWrites (bp : BasePorts) (keeper_ids replica_ids : Finset ℕ) : List Event :=
  (ascSort replica_ids).map
    (fun id => Event.writeServerConfig id (replicaView bp id keeper_ids replica_ids))

/-- How an orchestrator method ends: `ok` carries the event trace and
the metadata it persisted; `errored` models an early `Err` return (the
trace holds the side effects already performed); `crashed` models a
panic (e.g. `.expect(..)` on a failed process spawn). -/
inductive RunResult where
  | ok : List Event → ClickwardMetadata → RunResult
  | errored : List Event → String → RunResult
  | crashed : List Event → RunResult
deriving DecidableEq

/-- The final metadata of a successful run, if any. -/
def RunResult.finalMeta : RunResult → Option ClickwardMetadata
  | RunResult.ok _ m => some m
  | _ => none

/-- The side effects a run performed before it ended. -/
def RunResult.events : RunResult → List Event
  | RunResult.ok t _ => t
  | RunResult.errored t _ => t
  | RunResult.crashed t => t

/-- Embeds the Rust `Deployment` (its `DeploymentConfig` holds a
filesystem path — pure I/O plumbing — and the base ports, which are all
the configuration logic reads). -/
structure Deployment where
  base_ports : BasePorts

namespace Deployment

/-- The side effects `Deployment::add_keeper` performs before
`start_keeper`: persist the mutated metadata, then write the new
keeper's configuration. -/
def addKeeperHead (d : Deployment) (m : ClickwardMetadata) : List Event :=
  [Event.saveMeta (m.add_keeper).2,
   Event.writeKeeperConfig (m.add_keeper).1
     (keeperView d.base_ports (m.add_keeper).1 (m.add_keeper).2.keeper_ids)]

/-- The full success trace of `Deployment::add_keeper`, in statement
order: save, write the new keeper's config, start it, then rewrite
every *other* keeper's config (loop over `keeper_ids` minus `new_id`,
each config built from the full new `keeper_ids`), then
`generate_clickhouse_config` for every server. -/
def addKeeperTrace (d : Deployment) (m : ClickwardMetadata) : List Event :=
  d.addKeeperHead m ++
    [Event.startKeeper (m.add_keeper).1] ++
    keeperWritesOver d.base_ports
      ((m.add_keeper).2.keeper_ids.erase (m.add_keeper).1)
      (m.add_keeper).2.keeper_ids ++
    serverWrites d.base_ports (m.add_keeper).2.keeper_ids (m.add_keeper).2.server_ids

/-- Embeds `Deployment::add_keeper`.  `startOk` models whether the
`Command::spawn` inside `start_keeper` succeeds; on failure the Rust
code panics via `.expect("Failed to start keeper")`, with the save and
the new keeper's config write already done. -/
def add_keeper (d : Deployment) (m : ClickwardMetadata) (startOk : Bool) : RunResult :=
  if startOk then RunResult.ok (d.addKeeperTrace m) (m.add_keeper).2
  else RunResult.crashed (d.addKeeperHead m)

/-- Embeds `Deployment::add_server`: save the mutated metadata, rewrite
every server's configuration, then start the new server (a panic on a
failed spawn, as in `add_keeper`). -/
def add_server (d : Deployment) (m : ClickwardMetadata) (startOk : Bool) : RunResult :=
  let pre := Event.saveMeta (m.add_server).2 ::
    serverWrites d.base_ports (m.add_server).2.keeper_ids (m.add_server).2.server_ids
  if startOk then RunResult.ok (pre ++ [Event.startServer (m.add_server).1]) (m.add_server).2
  else RunResult.crashed pre

/-- Embeds `Deployment::remove_keeper`: `meta.remove_keeper(id)?` — an
error propagates immediately (nothing persisted, nothing signalled);
otherwise save, rewrite every remaining keeper's configuration, stop
the removed keeper, then rewrite every server's configuration. -/
def remove_keeper (d : Deployment) (m : ClickwardMetadata) (id : ℕ) : RunResult :=
  match m.remove_keeper id with
  | (Except.error e, _) => RunResult.errored [] e
  | (Except.ok _, m') =>
    RunResult.ok
      (Event.saveMeta m' ::
        (keeperWritesOver d.base_ports m'.keeper_ids m'.keeper_ids ++
          Event.stopKeeper id ::
            serverWrites d.base_ports m'.keeper_ids m'.server_ids))
      m'

/-- Embeds `Deployment::remove_server`: `meta.remove_server(id)?` — an
error propagates immediately; otherwise save, rewrite every remaining
server's configuration, then stop the removed server. -/
def remove_server (d : Deployment) (m : ClickwardMetadata) (id : ℕ) : RunResult :=
  match m.remove_server id with
  | (Except.error e, _) => RunResult.errored [] e
  | (Except.ok _, m') =>
    RunResult.ok
      (Event.saveMeta m' ::
        (serverWrites d.base_ports m'.keeper_ids m'.server_ids ++
          [Event.stopServer id]))
      m'

/-- Embeds `Deployment::generate_config` (genesis): build the two
contiguous id ranges `1..=n`, write every replica's and every keeper's
configuration, then construct (`ClickwardMetadata::new` — a panic,
modelled by `none`, if a range is empty) and save the metadata. -/
def generate_config (d : Deployment) (num_keepers num_replicas : ℕ) :
    Option (List Event × ClickwardMetadata) :=
  let keeper_ids := Finset.Icc 1 num_keepers
  let replica_ids := Finset.Icc 1 num_replicas
  match ClickwardMetadata.new keeper_ids replica_ids with
  | none => none
  | some meta =>
    some (serverWrites d.base_ports keeper_ids replica_ids ++
            keeperWritesOver d.base_ports keeper_ids keeper_ids ++
            [Event.saveMeta meta],
          meta)

end Deployment

/-- One metadata mutation, as issued by the orchestrator commands. -/
inductive Op where
  | addKeeper : Op
  | removeKeeper : ℕ → Op
  | addServer : Op
  | removeServer : ℕ → Op
deriving DecidableEq

/-- The metadata after one mutation (for removals this is the post-state
of the Rust `&mut self` call whether or not it reported `NotFound`:
erasing a non-member changes nothing). -/
def ClickwardMetadata.applyOp (m : ClickwardMetadata) : Op → ClickwardMetadata
  | Op.addKeeper => (m.add_keeper).2
  | Op.removeKeeper id => (m.remove_keeper id).2
  | Op.addServer => (m.add_server).2
  | Op.removeServer id => (m.remove_server id).2

/-- The metadata after a sequence of mutations. -/
def ClickwardMetadata.runOps (m : ClickwardMetadata) : List Op → ClickwardMetadata
  | [] => m
  | op :: rest => (m.applyOp op).runOps rest

/-- The id-space invariant: every live id lies in `{1..max}` of its
space. -/
def ClickwardMetadata.Inv (m : ClickwardMetadata) : Prop :=
  (∀ x ∈ m.keeper_ids, 1 ≤ x ∧ x ≤ m.max_keeper_id) ∧
  (∀ x ∈ m.server_ids, 1 ≤ x ∧ x ≤ m.max_server_id)

/-! ### Helper lemmas -/

/-- `ascSortM` enumerates exactly the elements of the multiset. -/
theorem coe_ascSortM (m : Multiset ℕ) : (↑(ascSortM m) : Multiset ℕ) = m :=
  Quot.inductionOn m fun l => Quot.sound (List.perm_insertionSort _ l)

/-- `ascSortM` produces an ascending list. -/
theorem sorted_ascSortM (m : Multiset ℕ) : (ascSortM m).Sorted (· ≤ ·) :=
  Quot.inductionOn m fun l => List.sorted_insertionSort _ l

/-- `ascSort` agrees with Mathlib's `Finset.sort`. -/
theorem ascSort_eq_sort (s : Finset ℕ) : ascSort s = s.sort (· ≤ ·) :=
  List.eq_of_perm_of_sorted
    (Multiset.coe_eq_coe.mp (by rw [ascSort, coe_ascSortM, Finset.sort_eq]))
    (sorted_ascSortM _) (Finset.sort_sorted _ _)

/-- Membership in the ascending enumeration is membership in the set. -/
theorem mem_ascSort {s : Finset ℕ} {a : ℕ} : a ∈ ascSort s ↔ a ∈ s := by
  rw [ascSort_eq_sort]
  exact Finset.mem_sort _

/-- The ascending enumeration has one entry per member. -/
theorem length_ascSort (s : Finset ℕ) : (ascSort s).length = s.card := by
  rw [ascSort_eq_sort]
  exact Finset.length_sort _

/-- An element delivered by `getElem?` is a member of the list. -/
theorem mem_of_some_getElem {α : Type} {l : List α} {i : ℕ} {a : α}
    (h : l[i]? = some a) : a ∈ l := by
  induction l generalizing i with
  | nil => simp at h
  | cons x xs ih =>
    cases i with
    | zero =>
      simp at h
      simp [h]
    | succ n =>
      simp only [List.getElem?_cons_succ] at h
      exact List.mem_cons_of_mem _ (ih h)

/-! ### C5 -/

/-- C5: starting from the topology `keeper_ids = {1,2,3}`,
`max_keeper_id = 3`, `RemoveKeeper(2)` succeeds and persists
`keeper_ids = {1,3}` with `max_keeper_id` still `3`, and a subsequent
`AddKeeper` allocates and returns id `4` (the removed id `2` is never
reused: the ids after the add are `{1,3,4}`). -/
theorem remove_keeper_2_then_add_allocates_4 :
    ((Deployment.mk DEFAULT_BASE_PORTS).remove_keeper
        (ClickwardMetadata.mk {1, 2, 3} 3 {1, 2} 2) 2).finalMeta =
      some (ClickwardMetadata.mk {1, 3} 3 {1, 2} 2) ∧
    ((ClickwardMetadata.mk {1, 3} 3 {1, 2} 2).add_keeper).1 = 4 ∧
    ((ClickwardMetadata.mk {1, 3} 3 {1, 2} 2).add_keeper).2.keeper_ids = {1, 3, 4} ∧
    (2 : ℕ) ∉ ((ClickwardMetadata.mk {1, 3} 3 {1, 2} 2).add_keeper).2.keeper_ids := by
  refine ⟨by decide, by decide, by decide, by decide⟩

/-! ### C8 -/

/-- C8: genesis with 3 keepers and 2 replicas produces the topology
`keeper_ids = {1,2,3}`, `max_keeper_id = 3`, `server_ids = {1,2}`,
`max_server_id = 2` (each id set the contiguous range `1..=N`, each
high-water mark the range maximum). -/
theorem genesis_3_2_topology :
    ((Deployment.mk DEFAULT_BASE_PORTS).generate_config 3 2).map Prod.snd =
      some (ClickwardMetadata.mk {1, 2, 3} 3 {1, 2} 2) := by
  decide

/-! ### C6 -/

/-- C6 counterexample: with an empty keeper id range the genesis
constructor does not return an error — its Rust return type
(`ClickwardMetadata`, no `Result`) has no error channel at all — it
panics on `.last().unwrap()` of the empty set, modelled by `none`.  The
claim that it "returns an error to the caller rather than succeeding or
crashing" is therefore false at this input. -/
theorem new_empty_keepers_panics : ClickwardMetadata.new ∅ {1} = none := by
  decide

/-- C6 (amended): `ClickwardMetadata::new` crashes (panics on `unwrap`,
modelled by `none`) exactly when one of the two id ranges is empty; it
does not return an error value to the caller. -/
theorem new_crashes_iff_empty_range (ks rs : Finset ℕ) :
    ClickwardMetadata.new ks rs = none ↔ ks = ∅ ∨ rs = ∅ := by
  by_cases hk : ks.Nonempty <;> by_cases hr : rs.Nonempty
  · simp [ClickwardMetadata.new, hk, hr, Finset.nonempty_iff_ne_empty.mp hk,
      Finset.nonempty_iff_ne_empty.mp hr]
  · have h := Finset.not_nonempty_iff_eq_empty.mp hr
    subst h
    simp [ClickwardMetadata.new, hk]
  · have h := Finset.not_nonempty_iff_eq_empty.mp hk
    subst h
    simp [ClickwardMetadata.new]
  · have h := Finset.not_nonempty_iff_eq_empty.mp hk
    subst h
    simp [ClickwardMetadata.new]

/-! ### C3 -/

/-- C3: removing an id that is not a member of its id space fails with
the NotFound error and leaves the metadata unchanged, and the
orchestrator operation aborts with an empty side-effect trace: nothing
is persisted and no node is signalled (for keepers and servers alike). -/
theorem remove_nonmember_not_found (d : Deployment) (m : ClickwardMetadata)
    (kid sid : ℕ) (hk : kid ∉ m.keeper_ids) (hs : sid ∉ m.server_ids) :
    m.remove_keeper kid = (Except.error ("No such keeper: " ++ toString kid), m) ∧
    m.remove_server sid = (Except.error ("No such replica: " ++ toString sid), m) ∧
    d.remove_keeper m kid = RunResult.errored [] ("No such keeper: " ++ toString kid) ∧
    d.remove_server m sid = RunResult.errored [] ("No such replica: " ++ toString sid) := by
  have h1 : m.keeper_ids.erase kid = m.keeper_ids := Finset.erase_eq_of_not_mem hk
  have h2 : m.server_ids.erase sid = m.server_ids := Finset.erase_eq_of_not_mem hs
  refine ⟨?_, ?_, ?_, ?_⟩ <;>
    simp [ClickwardMetadata.remove_keeper, ClickwardMetadata.remove_server,
      Deployment.remove_keeper, Deployment.remove_server, hk, hs, h1, h2]

/-- Witness for C3 at a concrete input: keeper id 5 and server id 7 are
not members of the topology `⟨{1}, 1, {1}, 1⟩`. -/
theorem remove_nonmember_not_found_witness :
    (5 : ℕ) ∉ (ClickwardMetadata.mk {1} 1 {1} 1).keeper_ids ∧
    (7 : ℕ) ∉ (ClickwardMetadata.mk {1} 1 {1} 1).server_ids ∧
    ((ClickwardMetadata.mk {1} 1 {1} 1).remove_keeper 5 =
        (Except.error ("No such keeper: " ++ toString 5), ClickwardMetadata.mk {1} 1 {1} 1) ∧
      (ClickwardMetadata.mk {1} 1 {1} 1).remove_server 7 =
        (Except.error ("No such replica: " ++ toString 7), ClickwardMetadata.mk {1} 1 {1} 1) ∧
      (Deployment.mk DEFAULT_BASE_PORTS).remove_keeper (ClickwardMetadata.mk {1} 1 {1} 1) 5 =
        RunResult.errored [] ("No such keeper: " ++ toString 5) ∧
      (Deployment.mk DEFAULT_BASE_PORTS).remove_server (ClickwardMetadata.mk {1} 1 {1} 1) 7 =
        RunResult.errored [] ("No such replica: " ++ toString 7)) :=
  ⟨by decide, by decide,
    remove_nonmember_not_found (Deployment.mk DEFAULT_BASE_PORTS)
      (ClickwardMetadata.mk {1} 1 {1} 1) 5 7 (by decide) (by decide)⟩

/-! ### C2 -/

theorem applyOp_max_mono (m : ClickwardMetadata) (op : Op) :
    m.max_keeper_id ≤ (m.applyOp op).max_keeper_id ∧
    m.max_server_id ≤ (m.applyOp op).max_server_id := by
  cases op <;>
    simp [ClickwardMetadata.applyOp, ClickwardMetadata.add_keeper,
      ClickwardMetadata.add_server, ClickwardMetadata.remove_keeper,
      ClickwardMetadata.remove_server, apply_ite]

theorem applyOp_inv (m : ClickwardMetadata) (op : Op) (h : m.Inv) :
    (m.applyOp op).Inv := by
  obtain ⟨hk, hs⟩ := h
  cases op with
  | addKeeper =>
    refine ⟨fun x hx => ?_, fun x hx => ?_⟩ <;>
      simp [ClickwardMetadata.applyOp, ClickwardMetadata.add_keeper] at hx ⊢
    · rcases hx with h | h
      · omega
      · have := hk x h
        omega
    · exact hs x hx
  | removeKeeper id =>
    refine ⟨fun x hx => ?_, fun x hx => ?_⟩ <;>
      simp [ClickwardMetadata.applyOp, ClickwardMetadata.remove_keeper,
        apply_ite] at hx ⊢
    · exact hk x hx.2
    · exact hs x hx
  | addServer =>
    refine ⟨fun x hx => ?_, fun x hx => ?_⟩ <;>
      simp [ClickwardMetadata.applyOp, ClickwardMetadata.add_server] at hx ⊢
    · exact hk x hx
    · rcases hx with h | h
      · omega
      · have := hs x h
        omega
  | removeServer id =>
    refine ⟨fun x hx => ?_, fun x hx => ?_⟩ <;>
      simp [ClickwardMetadata.applyOp, ClickwardMetadata.remove_server,
        apply_ite] at hx ⊢
    · exact hk x hx
    · exact hs x hx.2

theorem runOps_max_mono (ops : List Op) (m : ClickwardMetadata) :
    m.max_keeper_id ≤ (m.runOps ops).max_keeper_id ∧
    m.max_server_id ≤ (m.runOps ops).max_server_id := by
  induction ops generalizing m with
  | nil => exact ⟨le_refl _, le_refl _⟩
  | cons op rest ih =>
    have h1 := applyOp_max_mono m op
    have h2 := ih (m.applyOp op)
    exact ⟨h1.1.trans h2.1, h1.2.trans h2.2⟩

theorem runOps_inv (ops : List Op) (m : ClickwardMetadata) (h : m.Inv) :
    (m.runOps ops).Inv := by
  induction ops generalizing m with
  | nil => exact h
  | cons op rest ih => exact ih _ (applyOp_inv m op h)

theorem runOps_append (l1 l2 : List Op) (m : ClickwardMetadata) :
    m.runOps (l1 ++ l2) = (m.runOps l1).runOps l2 := by
  induction l1 generalizing m with
  | nil => rfl
  | cons op rest ih => simpa [ClickwardMetadata.runOps] using ih (m.applyOp op)

/-- C2: starting from a genesis topology, along every sequence of
mutations (split as `ops1 ++ ops2`) each high-water mark is
non-decreasing, dominates every id that was ever live in its space, and
the live id set always stays inside `{1..max}` — for the keeper and the
server id space alike. -/
theorem id_space_monotone (nk ns : ℕ) (m0 : ClickwardMetadata)
    (h0 : ClickwardMetadata.new (Finset.Icc 1 nk) (Finset.Icc 1 ns) = some m0)
    (ops1 ops2 : List Op) :
    (m0.runOps ops1).max_keeper_id ≤ (m0.runOps (ops1 ++ ops2)).max_keeper_id ∧
    (∀ x ∈ (m0.runOps ops1).keeper_ids, x ≤ (m0.runOps (ops1 ++ ops2)).max_keeper_id) ∧
    (m0.runOps (ops1 ++ ops2)).keeper_ids ⊆
      Finset.Icc 1 (m0.runOps (ops1 ++ ops2)).max_keeper_id ∧
    (m0.runOps ops1).max_server_id ≤ (m0.runOps (ops1 ++ ops2)).max_server_id ∧
    (∀ x ∈ (m0.runOps ops1).server_ids, x ≤ (m0.runOps (ops1 ++ ops2)).max_server_id) ∧
    (m0.runOps (ops1 ++ ops2)).server_ids ⊆
      Finset.Icc 1 (m0.runOps (ops1 ++ ops2)).max_server_id := by
  have hinv0 : m0.Inv := by
    unfold ClickwardMetadata.new at h0
    by_cases hk : (Finset.Icc 1 nk).Nonempty
    · by_cases hr : (Finset.Icc 1 ns).Nonempty
      · rw [dif_pos hk, dif_pos hr] at h0
        obtain rfl := Option.some.injEq .. ▸ h0.symm
        constructor
        · intro x hx
          exact ⟨(Finset.mem_Icc.mp hx).1, Finset.le_max' _ x hx⟩
        · intro x hx
          exact ⟨(Finset.mem_Icc.mp hx).1, Finset.le_max' _ x hx⟩
      · rw [dif_pos hk, dif_neg hr] at h0
        exact absurd h0 (by simp)
    · rw [dif_neg hk] at h0
      exact absurd h0 (by simp)
  have hmid : (m0.runOps ops1).Inv := runOps_inv ops1 m0 hinv0
  have hfin : (m0.runOps (ops1 ++ ops2)).Inv := runOps_inv (ops1 ++ ops2) m0 hinv0
  have happ := runOps_append ops1 ops2 m0
  have hmono := runOps_max_mono ops2 (m0.runOps ops1)
  rw [happ]
  refine ⟨hmono.1, fun x hx => ?_, fun x hx => ?_, hmono.2, fun x hx => ?_,
    fun x hx => ?_⟩
  · exact (hmid.1 x hx).2.trans hmono.1
  · rw [happ] at hfin
    have := hfin.1 x hx
    exact Finset.mem_Icc.mpr this
  · exact (hmid.2 x hx).2.trans hmono.2
  · rw [happ] at hfin
    have := hfin.2 x hx
    exact Finset.mem_Icc.mpr this

/-- Witness for C2 at a concrete genesis (3 keepers, 2 replicas) and the
mutation sequence `[addKeeper] ++ [removeKeeper 2]`. -/
theorem id_space_monotone_witness :
    ClickwardMetadata.new (Finset.Icc 1 3) (Finset.Icc 1 2) =
      some (ClickwardMetadata.mk {1, 2, 3} 3 {1, 2} 2) ∧
    (((ClickwardMetadata.mk {1, 2, 3} 3 {1, 2} 2).runOps
        [Op.addKeeper]).max_keeper_id ≤
      ((ClickwardMetadata.mk {1, 2, 3} 3 {1, 2} 2).runOps
        ([Op.addKeeper] ++ [Op.removeKeeper 2])).max_keeper_id) :=
  ⟨by decide,
    (id_space_monotone 3 2 (ClickwardMetadata.mk {1, 2, 3} 3 {1, 2} 2)
      (by decide) [Op.addKeeper] [Op.removeKeeper 2]).1⟩

/-! ### C1 -/

/-- C1: in `AddKeeper`, after the save, position 1 of the trace writes
the new keeper's configuration and position 2 starts its node, and any
configuration rewrite for an *other* live keeper or for any server sits
strictly after both (index `> 2`).  The first conjunct ties the trace to
the operation's successful run. -/
theorem add_keeper_configures_new_keeper_first (d : Deployment)
    (m : ClickwardMetadata) (i : ℕ) (e : Event)
    (hi : (d.addKeeperTrace m)[i]? = some e)
    (he : (e.isOtherKeeperWrite (m.add_keeper).1 || e.isServerCfgWrite) = true) :
    d.add_keeper m true = RunResult.ok (d.addKeeperTrace m) (m.add_keeper).2 ∧
    (d.addKeeperTrace m)[1]? =
      some (Event.writeKeeperConfig (m.add_keeper).1
        (keeperView d.base_ports (m.add_keeper).1 (m.add_keeper).2.keeper_ids)) ∧
    (d.addKeeperTrace m)[2]? = some (Event.startKeeper (m.add_keeper).1) ∧
    2 < i := by
  refine ⟨rfl, by simp [Deployment.addKeeperTrace, Deployment.addKeeperHead],
    by simp [Deployment.addKeeperTrace, Deployment.addKeeperHead], ?_⟩
  match i with
  | 0 =>
    simp [Deployment.addKeeperTrace, Deployment.addKeeperHead] at hi
    subst hi
    simp [Event.isOtherKeeperWrite, Event.isServerCfgWrite] at he
  | 1 =>
    simp [Deployment.addKeeperTrace, Deployment.addKeeperHead] at hi
    subst hi
    simp [Event.isOtherKeeperWrite, Event.isServerCfgWrite] at he
  | 2 =>
    simp [Deployment.addKeeperTrace, Deployment.addKeeperHead] at hi
    subst hi
    simp [Event.isOtherKeeperWrite, Event.isServerCfgWrite] at he
  | (n + 3) => omega

/-- Witness for C1: on the topology `⟨{1}, 1, ∅, 0⟩` the add allocates
keeper 2, and the rewrite of the pre-existing keeper 1's configuration
occurs at index 3, after the new keeper's write (index 1) and start
(index 2). -/
theorem add_keeper_configures_new_keeper_first_witness :
    ((Deployment.mk DEFAULT_BASE_PORTS).addKeeperTrace
        (ClickwardMetadata.mk {1} 1 ∅ 0))[3]? =
      some (Event.writeKeeperConfig 1 (keeperView DEFAULT_BASE_PORTS 1 {1, 2})) ∧
    ((Event.writeKeeperConfig 1
        (keeperView DEFAULT_BASE_PORTS 1 {1, 2})).isOtherKeeperWrite
          ((ClickwardMetadata.mk {1} 1 ∅ 0).add_keeper).1 ||
      (Event.writeKeeperConfig 1
        (keeperView DEFAULT_BASE_PORTS 1 {1, 2})).isServerCfgWrite) = true ∧
    2 < 3 :=
  ⟨by decide, by decide,
    (add_keeper_configures_new_keeper_first (Deployment.mk DEFAULT_BASE_PORTS)
      (ClickwardMetadata.mk {1} 1 ∅ 0) 3
      (Event.writeKeeperConfig 1 (keeperView DEFAULT_BASE_PORTS 1 {1, 2}))
      (by decide) (by decide)).2.2.2⟩

/-! ### C4 -/

/-- C4: when `RemoveKeeper(id)` succeeds, the stop of the removed
keeper's process sits at a trace position `n` such that every
keeper-configuration rewrite is strictly before `n`, every remaining
live keeper's configuration is rewritten (from the mutated topology)
strictly before `n`, and no keeper configuration written by the
operation lists the removed `id` among its raft peers. -/
theorem remove_keeper_rewrites_peers_before_stop (d : Deployment)
    (m : ClickwardMetadata) (id : ℕ) (tr : List Event) (m' : ClickwardMetadata)
    (h : d.remove_keeper m id = RunResult.ok tr m') :
    ∃ n : ℕ, tr[n]? = some (Event.stopKeeper id) ∧
      (∀ (j : ℕ) (e : Event), tr[j]? = some e → e.isKeeperCfgWrite = true → j < n) ∧
      (∀ k ∈ m'.keeper_ids, ∃ j : ℕ, j < n ∧
        tr[j]? = some (Event.writeKeeperConfig k
          (keeperView d.base_ports k m'.keeper_ids))) ∧
      (∀ (j k : ℕ) (v : KeeperConfigView),
        tr[j]? = some (Event.writeKeeperConfig k v) →
        id ∉ v.raft_servers.map RaftServerConfig.id) := by
  unfold Deployment.remove_keeper at h
  by_cases hid : id ∈ m.keeper_ids
  · simp only [ClickwardMetadata.remove_keeper, if_pos hid] at h
    rw [RunResult.ok.injEq] at h
    obtain ⟨htr, hm⟩ := h
    subst htr
    subst hm
    set m1 : ClickwardMetadata := { m with keeper_ids := m.keeper_ids.erase id }
      with hm1
    set kw : List Event :=
      keeperWritesOver d.base_ports m1.keeper_ids m1.keeper_ids with hkw
    set sw : List Event :=
      serverWrites d.base_ports m1.keeper_ids m1.server_ids with hsw
    refine ⟨kw.length + 1, ?_, ?_, ?_, ?_⟩
    · rw [List.getElem?_cons_succ, List.getElem?_append_right (le_refl _)]
      simp
    · intro j e hj he
      by_contra hlt
      push_neg at hlt
      cases j with
      | zero =>
        rw [List.getElem?_cons_zero, Option.some.injEq] at hj
        subst hj
        simp [Event.isKeeperCfgWrite] at he
      | succ jj =>
        rw [List.getElem?_cons_succ] at hj
        have hge : kw.length ≤ jj := by omega
        rw [List.getElem?_append_right hge] at hj
        have hmem := mem_of_some_getElem hj
        rcases List.mem_cons.mp hmem with heq | hsw2
        · subst heq
          simp [Event.isKeeperCfgWrite] at he
        · rw [hsw, serverWrites] at hsw2
          obtain ⟨x, _, hx⟩ := List.mem_map.mp hsw2
          rw [← hx] at he
          simp [Event.isKeeperCfgWrite] at he
    · intro k hk
      have hk' : k ∈ ascSort m1.keeper_ids := mem_ascSort.mpr hk
      obtain ⟨i, hi, hik⟩ := List.mem_iff_getElem.mp hk'
      have hilen : i < kw.length := by
        rw [hkw, keeperWritesOver, List.length_map]
        exact hi
      refine ⟨i + 1, by omega, ?_⟩
      rw [List.getElem?_cons_succ, List.getElem?_append, if_pos hilen, hkw,
        keeperWritesOver, List.getElem?_map, List.getElem?_eq_getElem hi, hik]
      rfl
    · intro j k v hj
      have hmem := mem_of_some_getElem hj
      rcases List.mem_cons.mp hmem with heq | hrest
      · simp at heq
      · rcases List.mem_append.mp hrest with hkw2 | hstopsw
        · rw [hkw, keeperWritesOver] at hkw2
          obtain ⟨x, _, hx⟩ := List.mem_map.mp hkw2
          rw [Event.writeKeeperConfig.injEq] at hx
          rw [← hx.2]
          simp only [keeperView, List.map_map]
          simp only [Function.comp_def, List.map_id']
          rw [mem_ascSort]
          exact Finset.not_mem_erase id m.keeper_ids
        · rcases List.mem_cons.mp hstopsw with heq2 | hsw2
          · simp at heq2
          · rw [hsw, serverWrites] at hsw2
            obtain ⟨x, _, hx⟩ := List.mem_map.mp hsw2
            simp at hx
  · simp [ClickwardMetadata.remove_keeper, hid] at h

/-- Witness for C4: removing keeper 2 from the topology `⟨{1,2}, 2, {1}, 1⟩`
yields the concrete trace save / rewrite keeper 1 / stop keeper 2 /
rewrite server 1, and the ordering properties hold on it. -/
theorem remove_keeper_rewrites_peers_before_stop_witness :
    (Deployment.mk DEFAULT_BASE_PORTS).remove_keeper
        (ClickwardMetadata.mk {1, 2} 2 {1} 1) 2 =
      RunResult.ok
        [Event.saveMeta (ClickwardMetadata.mk {1} 2 {1} 1),
         Event.writeKeeperConfig 1 (keeperView DEFAULT_BASE_PORTS 1 {1}),
         Event.stopKeeper 2,
         Event.writeServerConfig 1 (replicaView DEFAULT_BASE_PORTS 1 {1} {1})]
        (ClickwardMetadata.mk {1} 2 {1} 1) ∧
    (∃ n : ℕ,
      ([Event.saveMeta (ClickwardMetadata.mk {1} 2 {1} 1),
        Event.writeKeeperConfig 1 (keeperView DEFAULT_BASE_PORTS 1 {1}),
        Event.stopKeeper 2,
        Event.writeServerConfig 1 (replicaView DEFAULT_BASE_PORTS 1 {1} {1})] :
          List Event)[n]? = some (Event.stopKeeper 2) ∧
      (∀ (j : ℕ) (e : Event),
        ([Event.saveMeta (ClickwardMetadata.mk {1} 2 {1} 1),
          Event.writeKeeperConfig 1 (keeperView DEFAULT_BASE_PORTS 1 {1}),
          Event.stopKeeper 2,
          Event.writeServerConfig 1 (replicaView DEFAULT_BASE_PORTS 1 {1} {1})] :
            List Event)[j]? = some e → e.isKeeperCfgWrite = true → j < n) ∧
      (∀ k ∈ (ClickwardMetadata.mk {1} 2 {1} 1).keeper_ids, ∃ j : ℕ, j < n ∧
        ([Event.saveMeta (ClickwardMetadata.mk {1} 2 {1} 1),
          Event.writeKeeperConfig 1 (keeperView DEFAULT_BASE_PORTS 1 {1}),
          Event.stopKeeper 2,
          Event.writeServerConfig 1 (replicaView DEFAULT_BASE_PORTS 1 {1} {1})] :
            List Event)[j]? = some (Event.writeKeeperConfig k
              (keeperView DEFAULT_BASE_PORTS k
                (ClickwardMetadata.mk {1} 2 {1} 1).keeper_ids))) ∧
      (∀ (j k : ℕ) (v : KeeperConfigView),
        ([Event.saveMeta (ClickwardMetadata.mk {1} 2 {1} 1),
          Event.writeKeeperConfig 1 (keeperView DEFAULT_BASE_PORTS 1 {1}),
          Event.stopKeeper 2,
          Event.writeServerConfig 1 (replicaView DEFAULT_BASE_PORTS 1 {1} {1})] :
            List Event)[j]? = some (Event.writeKeeperConfig k v) →
        2 ∉ v.raft_servers.map RaftServerConfig.id)) :=
  ⟨by decide,
    remove_keeper_rewrites_peers_before_stop (Deployment.mk DEFAULT_BASE_PORTS)
      (ClickwardMetadata.mk {1, 2} 2 {1} 1) 2
      [Event.saveMeta (ClickwardMetadata.mk {1} 2 {1} 1),
       Event.writeKeeperConfig 1 (keeperView DEFAULT_BASE_PORTS 1 {1}),
       Event.stopKeeper 2,
       Event.writeServerConfig 1 (replicaView DEFAULT_BASE_PORTS 1 {1} {1})]
      (ClickwardMetadata.mk {1} 2 {1} 1) (by decide)⟩

/-! ### C7 -/

/-- C7 counterexample: with the start step failing, `AddKeeper` on the
topology `⟨{1}, 1, ∅, 0⟩` ends in `crashed` — the Rust code panics via
`.expect("Failed to start keeper")` — not in an error result
(`start_keeper` returns `()`, not `Result`, so no error can reach the
caller).  The claim that a start failure "is surfaced to the caller as
the operation's failure (an error result)" and is not "turned into a
crash" is therefore false at this input. -/
theorem add_keeper_start_failure_crashes_cex :
    (Deployment.mk DEFAULT_BASE_PORTS).add_keeper
        (ClickwardMetadata.mk {1} 1 ∅ 0) false =
      RunResult.crashed
        [Event.saveMeta (ClickwardMetadata.mk (insert 2 {1}) 2 ∅ 0),
         Event.writeKeeperConfig 2
           (keeperView DEFAULT_BASE_PORTS 2 (insert 2 {1}))] := rfl

/-- C7 (amended): a failure of the node-lifecycle start step during
`AddKeeper` / `AddServer` crashes the process (a panic through
`.expect(..)`) instead of being returned as an error result; the
already-persisted topology mutation is not rolled back — the save of the
mutated metadata is the first event of the trace completed before the
crash. -/
theorem add_start_failure_crashes_after_persist (d : Deployment)
    (m : ClickwardMetadata) :
    d.add_keeper m false = RunResult.crashed (d.addKeeperHead m) ∧
    (d.addKeeperHead m)[0]? = some (Event.saveMeta (m.add_keeper).2) ∧
    d.add_server m false =
      RunResult.crashed (Event.saveMeta (m.add_server).2 ::
        serverWrites d.base_ports (m.add_server).2.keeper_ids
          (m.add_server).2.server_ids) :=
  ⟨rfl, rfl, rfl⟩

/-! ### C9 -/

/-- C9: with the default base ports, for every service and every node id
below 1000 (the spacing between adjacent base ports) the derived port is
exactly `base(service) + id`, and two distinct (service, id) pairs never
collide. -/
theorem port_derivation (s₁ s₂ : Service) (id₁ id₂ : ℕ)
    (h₁ : id₁ < 1000) (h₂ : id₂ < 1000) :
    derivedPort DEFAULT_BASE_PORTS s₁ id₁ = DEFAULT_BASE_PORTS.base s₁ + id₁ ∧
    ((s₁, id₁) ≠ (s₂, id₂) →
      derivedPort DEFAULT_BASE_PORTS s₁ id₁ ≠ derivedPort DEFAULT_BASE_PORTS s₂ id₂) := by
  cases s₁ <;> cases s₂ <;>
    refine ⟨?_, fun hne => ?_⟩ <;>
    simp only [derivedPort, u16_add, as_u16, BasePorts.base, DEFAULT_BASE_PORTS] <;>
    first
      | omega
      | (have hid : id₁ ≠ id₂ := by
          intro h
          exact hne (by rw [h])
         omega)

/-- Witness for C9: keeper-client base port 20000 and id 7 give exactly
20007, and the pair collides with no other service at the same id. -/
theorem port_derivation_witness :
    (7 : ℕ) < 1000 ∧
    derivedPort DEFAULT_BASE_PORTS Service.keeperClient 7 = 20007 ∧
    derivedPort DEFAULT_BASE_PORTS Service.keeperClient 7 ≠
      derivedPort DEFAULT_BASE_PORTS Service.raft 7 := by
  have h := port_derivation Service.keeperClient Service.raft 7 7
    (by decide) (by decide)
  refine ⟨by decide, ?_, h.2 (by decide)⟩
  rw [h.1]
  decide

/-! ### C10 -/

/-- C10: removing the sole remaining keeper of a topology `ma` (or the
sole remaining server of a topology `mb` — the two halves quantify over
independent topologies, so neither constrains the other id space)
succeeds and leaves the corresponding id set empty — no minimum
membership size is enforced; the keeper removal rewrites zero keeper
configurations; and a subsequent add still allocates from the preserved
high-water mark (`max + 1`). -/
theorem remove_sole_member (d : Deployment) (ma mb : ClickwardMetadata)
    (kid sid : ℕ) (hk : ma.keeper_ids = {kid}) (hs : mb.server_ids = {sid}) :
    (d.remove_keeper ma kid).finalMeta = some { ma with keeper_ids := ∅ } ∧
    (d.remove_keeper ma kid).events.countP (fun e => e.isKeeperCfgWrite) = 0 ∧
    (({ ma with keeper_ids := ∅ } : ClickwardMetadata).add_keeper).1 =
      ma.max_keeper_id + 1 ∧
    (d.remove_server mb sid).finalMeta = some { mb with server_ids := ∅ } ∧
    (({ mb with server_ids := ∅ } : ClickwardMetadata).add_server).1 =
      mb.max_server_id + 1 := by
  have hkid : kid ∈ ma.keeper_ids := by
    rw [hk]
    exact Finset.mem_singleton_self kid
  have hsid : sid ∈ mb.server_ids := by
    rw [hs]
    exact Finset.mem_singleton_self sid
  have hke : ma.keeper_ids.erase kid = ∅ := by
    rw [hk]
    simp
  have hse : mb.server_ids.erase sid = ∅ := by
    rw [hs]
    simp
  have hasc : ascSort (∅ : Finset ℕ) = [] := by
    rw [ascSort_eq_sort, Finset.sort_empty]
  refine ⟨?_, ?_, ?_, ?_, ?_⟩
  · simp [Deployment.remove_keeper, ClickwardMetadata.remove_keeper, hkid, hke,
      RunResult.finalMeta]
  · simp only [Deployment.remove_keeper, ClickwardMetadata.remove_keeper,
      if_pos hkid, RunResult.events]
    rw [List.countP_eq_zero]
    intro e he
    rcases List.mem_cons.mp he with heq | hrest
    · subst heq
      simp [Event.isKeeperCfgWrite]
    · rcases List.mem_append.mp hrest with hkw | hstopsw
      · rw [keeperWritesOver] at hkw
        simp only [hke, hasc, List.map_nil] at hkw
        exact absurd hkw (List.not_mem_nil e)
      · rcases List.mem_cons.mp hstopsw with heq2 | hsw
        · subst heq2
          simp [Event.isKeeperCfgWrite]
        · rw [serverWrites] at hsw
          obtain ⟨x, _, hx⟩ := List.mem_map.mp hsw
          rw [← hx]
          simp [Event.isKeeperCfgWrite]
  · simp [ClickwardMetadata.add_keeper]
  · simp [Deployment.remove_server, ClickwardMetadata.remove_server, hsid, hse,
      RunResult.finalMeta]
  · simp [ClickwardMetadata.add_server]

/-- Witness for C10 at topologies where only one id space is a
singleton: `⟨{7}, 9, {1,2}, 4⟩` has sole keeper 7 but two servers, and
`⟨{1,2,3}, 3, {5}, 6⟩` has three keepers but sole server 5; removing
keeper 7 (resp. server 5) succeeds and empties its set, no keeper
configuration is rewritten, and the next allocations return 10 and 7. -/
theorem remove_sole_member_witness :
    (ClickwardMetadata.mk {7} 9 {1, 2} 4).keeper_ids = {7} ∧
    (ClickwardMetadata.mk {1, 2, 3} 3 {5} 6).server_ids = {5} ∧
    (((Deployment.mk DEFAULT_BASE_PORTS).remove_keeper
        (ClickwardMetadata.mk {7} 9 {1, 2} 4) 7).finalMeta =
      some (ClickwardMetadata.mk ∅ 9 {1, 2} 4) ∧
    ((Deployment.mk DEFAULT_BASE_PORTS).remove_keeper
        (ClickwardMetadata.mk {7} 9 {1, 2} 4) 7).events.countP
        (fun e => e.isKeeperCfgWrite) = 0 ∧
    ((ClickwardMetadata.mk ∅ 9 {1, 2} 4).add_keeper).1 = 10 ∧
    ((Deployment.mk DEFAULT_BASE_PORTS).remove_server
        (ClickwardMetadata.mk {1, 2, 3} 3 {5} 6) 5).finalMeta =
      some (ClickwardMetadata.mk {1, 2, 3} 3 ∅ 6) ∧
    ((ClickwardMetadata.mk {1, 2, 3} 3 ∅ 6).add_server).1 = 7) :=
  ⟨rfl, rfl,
    remove_sole_member (Deployment.mk DEFAULT_BASE_PORTS)
      (ClickwardMetadata.mk {7} 9 {1, 2} 4)
      (ClickwardMetadata.mk {1, 2, 3} 3 {5} 6) 7 5 rfl rfl⟩
